import Mathlib

/-
Verification of the fromFilePath Moe plugin (fromFilePath.py): a shallow
embedding of the plugin's field guessing, blank-field reconciliation,
track-number disambiguation, pre-persist normalization and write-time tag
erasure, together with theorems about them.

Modelling conventions:
  * A pathlib Path is modelled by the two components the plugin reads:
    `stem` (file name without extension) and `parent.name`.
  * Python dict field sets are modelled as structures whose fields are
    `Option`-valued: `none` models Python `None`; Python falsiness of a
    field value ("blank") is made explicit by the blankOpt* predicates
    (None or "" for strings, None or 0 for ints; dates are always truthy).
  * The regex classes are modelled at ASCII level (Python's re would also
    accept non-ASCII digits/whitespace with the default Unicode flag).
  * In-place mutation of dicts/items is modelled by returning updated
    values; the module-global disambiguation state is threaded explicitly.
-/

namespace FromFilePath

/-- The parts of a pathlib Path used by the plugin: `path.stem` (final
component, extension stripped) and `path.parent.name`. -/
structure TrackPath where
  stem : String
  parentName : String
deriving DecidableEq

/-- ASCII decimal digit: the regex class backslash-d of the patterns. -/
def isPyDigit (c : Char) : Bool := c.isDigit

/-- The separator character class of pattern 1: one of period, hyphen,
underscore, colon. -/
def isSepChar (c : Char) : Bool := c = '.' || c = '-' || c = '_' || c = ':'

/-- ASCII whitespace: the regex class backslash-s of the patterns. -/
def isPySpace (c : Char) : Bool :=
  c = ' ' || c = '\t' || c = '\n' || c = '\r' || c = '\x0b' || c = '\x0c'

/-- Python semantics of the regex tail "(.+)$": one or more non-newline
characters reaching either the end of the string or the position just
before a single trailing newline (Python's dollar anchor also matches
there). Returns the captured title. -/
def matchTitleEnd (rest : List Char) : Option (List Char) :=
  if rest.contains '\n' then
    if rest.getLast? = some '\n' ∧ rest.dropLast.contains '\n' = false ∧ rest.dropLast ≠ [] then
      some rest.dropLast
    else none
  else if rest = [] then none else some rest

/-- Backtracking for the regex fragment "\s+(.+)$": `wsRev` is the
whitespace consumed so far (in reverse); greedy, so the full whitespace
run is tried first and on failure one whitespace character at a time is
handed back to the title. An empty `wsRev` means "\s+" matched nothing,
which fails. -/
def backtrackSpacesTitle : List Char → List Char → Option (List Char)
  | [], _ => none
  | c :: ws, rest =>
    match matchTitleEnd rest with
    | some t => some t
    | none => backtrackSpacesTitle ws (c :: rest)

/-- The regex fragment "\s+(.+)$" matched greedily against `r`. -/
def matchSpacesTitle (r : List Char) : Option (List Char) :=
  backtrackSpacesTitle (r.takeWhile isPySpace).reverse (r.dropWhile isPySpace)

/-- _PATTERNS[0]: a digit run (disc), a run of separators, a digit run
(track_num), whitespace, then the title. Taking each run maximal agrees
with Python's greedy backtracking because the digit, separator and
whitespace classes are pairwise disjoint: shortening any run would force
the next component to start on a character outside its class. -/
def matchPattern1 (s : String) : Option (String × String × String) :=
  let cs := s.toList
  let d := cs.takeWhile isPyDigit
  let r1 := cs.dropWhile isPyDigit
  let sep := r1.takeWhile isSepChar
  let r2 := r1.dropWhile isSepChar
  let t := r2.takeWhile isPyDigit
  let r3 := r2.dropWhile isPyDigit
  if d = [] ∨ sep = [] ∨ t = [] then none
  else
    match matchSpacesTitle r3 with
    | some ttl => some (d.asString, t.asString, ttl.asString)
    | none => none

/-- _PATTERNS[1]: a digit run (track_num), whitespace, then the title. -/
def matchPattern2 (s : String) : Option (String × String) :=
  let cs := s.toList
  let t := cs.takeWhile isPyDigit
  let r1 := cs.dropWhile isPyDigit
  if t = [] then none
  else
    match matchSpacesTitle r1 with
    | some ttl => some (t.asString, ttl.asString)
    | none => none

/-- The dictionary returned by guess_fields. The patterns' named groups are
exactly disc, track_num and title, so the possible keys are the two baseline
keys (always present) plus `track_num`/`disc` (present only when captured);
a captured title overwrites the baseline title entry. -/
structure GuessedFields where
  title : String
  album_title : String
  track_num : Option String
  disc : Option String
deriving DecidableEq

/-- guess_fields: baseline title = stem and album_title = parent directory
name; then the patterns of _PATTERNS are tried in priority order against the
filename and the first match's named groups overwrite/extend the fields. -/
def guess_fields (path : TrackPath) : GuessedFields :=
  let filename := path.stem
  let fields : GuessedFields :=
    { title := filename, album_title := path.parentName, track_num := none, disc := none }
  match matchPattern1 filename with
  | some (d, t, ttl) => { fields with disc := some d, track_num := some t, title := ttl }
  | none =>
    match matchPattern2 filename with
    | some (t, ttl) => { fields with track_num := some t, title := ttl }
    | none => fields

/-- datetime.date, by its three components; used only for equality with the
sentinel so no calendar arithmetic is modelled. A date object is always
truthy in Python. -/
structure PyDate where
  year : Nat
  month : Nat
  day : Nat
deriving DecidableEq

/-- datetime.date.min = date(1, 1, 1). -/
def dateMin : PyDate := ⟨1, 1, 1⟩

/-- The track field set handed to read_custom_tags: the policy-governed
keys of _NULL_TRACK_FIELDS, pre-populated by the host (blank-for-absent). -/
structure TrackFields where
  title : Option String
  track_num : Option Int
  disc : Option Int
deriving DecidableEq

/-- The album field set handed to read_custom_tags: the policy-governed
keys of _NULL_ALBUM_FIELDS. -/
structure AlbumFields where
  title : Option String
  artist : Option String
  date : Option PyDate
  disc_total : Option Int
deriving DecidableEq

/-- Python falsiness of a string-valued field: None or the empty string. -/
def blankOptStr : Option String → Bool
  | none => true
  | some s => decide (s = "")

/-- Python falsiness of an int-valued field: None or zero. -/
def blankOptInt : Option Int → Bool
  | none => true
  | some n => decide (n = 0)

/-- Python falsiness of a date-valued field: only None (date objects are
always truthy). -/
def blankOptDate : Option PyDate → Bool
  | none => true
  | some _ => false

/-- The sentinel table _NULL_TRACK_FIELDS, one definition per key. -/
def _NULL_TRACK_FIELDS_title : String := "<Unknown Track>"

def _NULL_TRACK_FIELDS_track_num : Int := -1

def _NULL_TRACK_FIELDS_disc : Int := 1

/-- The sentinel table _NULL_ALBUM_FIELDS, one definition per key. -/
def _NULL_ALBUM_FIELDS_title : String := "Unknown Album"

def _NULL_ALBUM_FIELDS_artist : String := "Unknown Artist"

def _NULL_ALBUM_FIELDS_date : PyDate := dateMin

def _NULL_ALBUM_FIELDS_disc_total : Int := 1

/-- The module-level configuration toggle _GUESS_TAGS (True as shipped). -/
def _GUESS_TAGS : Bool := true

/-- Python int() on a regex digit-run capture: the (non-negative) decimal
value. The source casts with int(), which only receives backslash-d
captures at these call sites. -/
def intOfDecimalDigits (s : String) : Int :=
  ((s.toList.foldl (fun n c => 10 * n + (c.toNat - 48)) 0 : Nat) : Int)

/-- The first fix-up loop of read_custom_tags: for each key of
_NULL_TRACK_FIELDS, a blank value is replaced by the sentinel, which is then
itself overwritten by the path guess when the guessed dictionary has that
key (cast to int when the sentinel is an int). Each loop iteration reads
and writes only its own key, so the loop is written fieldwise. The title
guess carries no Option: guess_fields always has a `title` entry. -/
def fillTrackFields (gf : GuessedFields) (tf : TrackFields) : TrackFields :=
  { title :=
      if blankOptStr tf.title then
        some (if _GUESS_TAGS then gf.title else _NULL_TRACK_FIELDS_title)
      else tf.title
    track_num :=
      if blankOptInt tf.track_num then
        some (match (if _GUESS_TAGS then gf.track_num else none) with
              | some g => intOfDecimalDigits g
              | none => _NULL_TRACK_FIELDS_track_num)
      else tf.track_num
    disc :=
      if blankOptInt tf.disc then
        some (match (if _GUESS_TAGS then gf.disc else none) with
              | some g => intOfDecimalDigits g
              | none => _NULL_TRACK_FIELDS_disc)
      else tf.disc }

/-- The second fix-up loop of read_custom_tags: album fields, with the guess
looked up under the key "album_" + fieldname. Only "album_title" ever occurs
in the guessed dictionary, so artist, date and disc_total can only receive
their sentinel; no int cast happens in this loop in the source. -/
def fillAlbumFields (gf : GuessedFields) (af : AlbumFields) : AlbumFields :=
  { title :=
      if blankOptStr af.title then
        some (if _GUESS_TAGS then gf.album_title else _NULL_ALBUM_FIELDS_title)
      else af.title
    artist :=
      if blankOptStr af.artist then some _NULL_ALBUM_FIELDS_artist else af.artist
    date :=
      if blankOptDate af.date then some _NULL_ALBUM_FIELDS_date else af.date
    disc_total :=
      if blankOptInt af.disc_total then some _NULL_ALBUM_FIELDS_disc_total else af.disc_total }

/-- The module-global mutable state: _last_added_album and
_null_track_num_count (initial values "" and 0). -/
structure DState where
  _last_added_album : String
  _null_track_num_count : Int
deriving DecidableEq

/-- The tail of read_custom_tags: if the reconciled track_num still equals
the sentinel, reset or bump the per-album counter and store its negation.
`albumTitle` is album_fields["title"] as read after the album fix-up loop. -/
def disambiguate (albumTitle : String) (tf : TrackFields) (st : DState) :
    TrackFields × DState :=
  if tf.track_num = some _NULL_TRACK_FIELDS_track_num then
    let st' :=
      if st._last_added_album ≠ albumTitle then
        { _last_added_album := albumTitle, _null_track_num_count := 1 }
      else
        { st with _null_track_num_count := st._null_track_num_count + 1 }
    ({ tf with track_num := some (-st'._null_track_num_count) }, st')
  else (tf, st)

/-- The read hook read_custom_tags: guess from the path, fix up blank track
then album fields, then disambiguate sentinel track numbers. The in-place
mutation of the two dicts and of the globals is modelled by returning the
updated track fields, album fields and state. After the album loop
album_fields["title"] is always set (fillAlbumFields assigns it whenever it
was blank), so the getD default is never consulted. -/
def read_custom_tags (track_path : TrackPath) (album_fields : AlbumFields)
    (track_fields : TrackFields) (st : DState) :
    TrackFields × AlbumFields × DState :=
  let guessed_fields := guess_fields track_path
  let tf := fillTrackFields guessed_fields track_fields
  let af := fillAlbumFields guessed_fields album_fields
  let r := disambiguate (af.title.getD "") tf st
  (r.1, af, r.2)

/-- One read-hook invocation: the per-call inputs of read_custom_tags. -/
structure ReadInvocation where
  track_path : TrackPath
  album_fields : AlbumFields
  track_fields : TrackFields
deriving DecidableEq

/-- A serial sequence of read-hook invocations threading the module state. -/
def runReads : List ReadInvocation → DState → List (TrackFields × AlbumFields) × DState
  | [], st => ([], st)
  | inv :: rest, st =>
    let r := read_custom_tags inv.track_path inv.album_fields inv.track_fields st
    let rr := runReads rest r.2.2
    ((r.1, r.2.1) :: rr.1, rr.2)

/-- The track numbers the disambiguator hands out from counter value `c`:
-(c+1), -(c+2), ... for `n` tracks. -/
def negTrackNums (c : Int) : Nat → List (Option Int)
  | 0 => []
  | n + 1 => some (-(c + 1)) :: negTrackNums (c + 1) n

/-- A library Track item: the attributes of moe.library.Track the plugin
touches (track_num) or reads (path), plus representative others to state
frame conditions. -/
structure Track where
  path : TrackPath
  title : String
  track_num : Int
  disc : Int
deriving DecidableEq

/-- A non-track library item (e.g. an Album record): isinstance(item, Track)
is false for it, so the pre-persist hooks must ignore it. -/
structure AlbumRec where
  title : String
  artist : String
deriving DecidableEq

/-- A heterogeneous library item, as passed to the pre-persist hooks. -/
inductive LibItem
  | track (t : Track)
  | album (a : AlbumRec)
deriving DecidableEq

/-- process_new_items: for every Track item with a negative track_num, set
it to 0; everything else untouched. In-place mutation of the list's items is
modelled by returning the updated list. -/
def process_new_items (items : List LibItem) : List LibItem :=
  items.map fun item =>
    match item with
    | LibItem.track t =>
      if t.track_num < 0 then LibItem.track { t with track_num := 0 } else LibItem.track t
    | LibItem.album a => LibItem.album a

/-- process_changed_items: textually the same body as process_new_items in
the source. -/
def process_changed_items (items : List LibItem) : List LibItem :=
  items.map fun item =>
    match item with
    | LibItem.track t =>
      if t.track_num < 0 then LibItem.track { t with track_num := 0 } else LibItem.track t
    | LibItem.album a => LibItem.album a

/-- The on-disk tag state mediafile.MediaFile reads back from the
just-written file: absent numeric/date tags come back as None. -/
structure AudioFileTags where
  track : Option Int
  date : Option PyDate
deriving DecidableEq

/-- The nullTags dictionary write_custom_tags builds, as its list of keys in
insertion order ("track" first, then "date"). -/
def nullTagsFor (delTrack : Bool) (audio_file : AudioFileTags) : List String :=
  (if delTrack then ["track"] else []) ++
    (if audio_file.date = some _NULL_ALBUM_FIELDS_date then ["date"] else [])

/-- The write hook write_custom_tags, reduced to its tag-deletion decision:
Python's `track.track_num <= 0 or audio_file.track <= 0` short-circuits, and
when the left side is false and audio_file.track is None the comparison
raises TypeError, modelled as Except.error. On success the hook applies
exactly the returned nullTags keys as deletions. The equality
`audio_file.date == date.min` never raises (None == date is just False). -/
def write_custom_tags (track : Track) (audio_file : AudioFileTags) :
    Except String (List String) :=
  if track.track_num ≤ 0 then
    Except.ok (nullTagsFor true audio_file)
  else
    match audio_file.track with
    | none => Except.error "TypeError"
    | some v => Except.ok (nullTagsFor (decide (v ≤ 0)) audio_file)

/-- The hypotheses of the uniqueness claim, per invocation: the incoming
track_num is blank, the path guess has no track_num entry (so the
reconciled track_num is exactly the sentinel and the disambiguator fires),
and the album title reconciles to `A`. -/
abbrev sentinelCond (A : String) (inv : ReadInvocation) : Prop :=
  blankOptInt inv.track_fields.track_num = true ∧
  (guess_fields inv.track_path).track_num = none ∧
  (fillAlbumFields (guess_fields inv.track_path) inv.album_fields).title = some A

/-! Concrete sample inputs for witnesses and counterexamples. -/

/-- "/music/Unknown Artist/01-02 My Track Name.flac". -/
def samplePath1 : TrackPath := ⟨"01-02 My Track Name", "Unknown Artist"⟩

/-- A filename matching neither pattern. -/
def samplePathPlain : TrackPath := ⟨"Song", "My Album"⟩

/-- A filename whose track_num guess parses to 0. -/
def samplePathZero : TrackPath := ⟨"0 Song", "My Album"⟩

def samplePathA : TrackPath := ⟨"SongA", "My Album"⟩

def samplePathB : TrackPath := ⟨"SongB", "My Album"⟩

/-- A guess dictionary disagreeing with every sample field value. -/
def sampleGuess : GuessedFields := ⟨"Guess Title", "Guess Album", some "9", some "8"⟩

def sampleTrackFieldsFull : TrackFields := ⟨some "Real Title", some 5, some 2⟩

def sampleAlbumFieldsFull : AlbumFields := ⟨some "Al", some "Ar", some ⟨2020, 1, 2⟩, some 1⟩

def sampleTrackFieldsNoNum : TrackFields := ⟨some "T", none, some 1⟩

def sampleTrackFieldsZeroNum : TrackFields := ⟨some "T", some 0, some 1⟩

/-- The module-load state: _last_added_album = "", counter 0. -/
def sampleState0 : DState := ⟨"", 0⟩

def sampleInvA : ReadInvocation := ⟨samplePathA, sampleAlbumFieldsFull, sampleTrackFieldsNoNum⟩

def sampleInvB : ReadInvocation := ⟨samplePathB, sampleAlbumFieldsFull, sampleTrackFieldsNoNum⟩

def sampleTrack : Track := ⟨samplePathPlain, "T", 0, 1⟩

def sampleAudioFile : AudioFileTags := ⟨some 0, some dateMin⟩

/-! ## Theorems -/

/-- Helper: idempotence of process_new_items. -/
theorem process_new_items_idem (items : List LibItem) :
    process_new_items (process_new_items items) = process_new_items items := by
  induction items with
  | nil => rfl
  | cons x xs ih =>
    cases x with
    | track t =>
      by_cases h : t.track_num < 0 <;>
        simpa [process_new_items, h] using ih
    | album a => simpa [process_new_items] using ih

/-- C7: the pre-persist Sentinel Normalizer is idempotent (negative goes to
0 and 0 stays 0) and, on a track item, rewrites only track_num, keeping
path, title and disc; non-track items are returned untouched. Both
pre-persist hooks behave this way. -/
theorem sentinel_normalizer_idempotent_frame :
    (∀ items, process_new_items (process_new_items items) = process_new_items items)
    ∧ (∀ items, process_changed_items (process_changed_items items) = process_changed_items items)
    ∧ (∀ t : Track, process_new_items [LibItem.track t]
        = [LibItem.track ⟨t.path, t.title, if t.track_num < 0 then 0 else t.track_num, t.disc⟩])
    ∧ (∀ t : Track, process_changed_items [LibItem.track t]
        = [LibItem.track ⟨t.path, t.title, if t.track_num < 0 then 0 else t.track_num, t.disc⟩])
    ∧ (∀ a : AlbumRec, process_new_items [LibItem.album a] = [LibItem.album a])
    ∧ (∀ a : AlbumRec, process_changed_items [LibItem.album a] = [LibItem.album a]) := by
  refine ⟨process_new_items_idem, process_new_items_idem, ?_, ?_, fun a => rfl, fun a => rfl⟩ <;>
    · intro t
      by_cases h : t.track_num < 0 <;> simp [process_new_items, process_changed_items, h]

/-- C8: the two pre-persist hooks are extensionally equal: their source
bodies are the same loop, so they map every item list identically. -/
theorem process_hooks_extensionally_equal :
    ∀ items : List LibItem, process_new_items items = process_changed_items items :=
  fun _ => rfl

/-- C5: a filename (stem) matching pattern 1 makes guess_fields return
disc, track_num and title exactly equal to the captured groups — the
captured title overwriting the stem baseline — together with album_title
equal to the parent directory name; pattern 1 is first in the priority
list, so pattern 2 is never consulted. -/
theorem guess_fields_pattern1 (p : TrackPath) (d t ttl : String)
    (h : matchPattern1 p.stem = some (d, t, ttl)) :
    guess_fields p =
      { title := ttl, album_title := p.parentName, track_num := some t, disc := some d } := by
  simp [guess_fields, h]

/-- Witness for guess_fields_pattern1 at "01-02 My Track Name". -/
theorem guess_fields_pattern1_witness :
    guess_fields samplePath1 =
      { title := "My Track Name", album_title := "Unknown Artist",
        track_num := some "02", disc := some "01" } :=
  guess_fields_pattern1 samplePath1 "01" "02" "My Track Name" (by decide)

/-- C6: a filename (stem) matching neither pattern makes guess_fields
return exactly the baseline: title = stem and album_title = parent
directory name, with no track_num and no disc entry. -/
theorem guess_fields_no_pattern_match (p : TrackPath)
    (h1 : matchPattern1 p.stem = none) (h2 : matchPattern2 p.stem = none) :
    guess_fields p =
      { title := p.stem, album_title := p.parentName, track_num := none, disc := none } := by
  simp [guess_fields, h1, h2]

/-- Witness for guess_fields_no_pattern_match at "Song". -/
theorem guess_fields_no_pattern_match_witness :
    guess_fields samplePathPlain =
      { title := "Song", album_title := "My Album", track_num := none, disc := none } :=
  guess_fields_no_pattern_match samplePathPlain (by decide) (by decide)

/-- C3: the Field Reconciler's fix-up loops (lines 85-105) only ever write
blank fields: every policy-governed field whose incoming value is non-blank
(real tag data present) is left unchanged, whatever the guess dictionary
holds. -/
theorem fill_blanks_only (gf : GuessedFields) (tf : TrackFields) (af : AlbumFields) :
    (blankOptStr tf.title = false → (fillTrackFields gf tf).title = tf.title)
    ∧ (blankOptInt tf.track_num = false → (fillTrackFields gf tf).track_num = tf.track_num)
    ∧ (blankOptInt tf.disc = false → (fillTrackFields gf tf).disc = tf.disc)
    ∧ (blankOptStr af.title = false → (fillAlbumFields gf af).title = af.title)
    ∧ (blankOptStr af.artist = false → (fillAlbumFields gf af).artist = af.artist)
    ∧ (blankOptDate af.date = false → (fillAlbumFields gf af).date = af.date)
    ∧ (blankOptInt af.disc_total = false → (fillAlbumFields gf af).disc_total = af.disc_total) := by
  refine ⟨fun h => ?_, fun h => ?_, fun h => ?_, fun h => ?_, fun h => ?_, fun h => ?_,
    fun h => ?_⟩ <;>
    simp [fillTrackFields, fillAlbumFields, h]

/-- Witness for fill_blanks_only: a fully populated track/album pair is
untouched even though sampleGuess disagrees with every field. -/
theorem fill_blanks_only_witness :
    (fillTrackFields sampleGuess sampleTrackFieldsFull).title = sampleTrackFieldsFull.title
    ∧ (fillTrackFields sampleGuess sampleTrackFieldsFull).track_num
        = sampleTrackFieldsFull.track_num
    ∧ (fillTrackFields sampleGuess sampleTrackFieldsFull).disc = sampleTrackFieldsFull.disc
    ∧ (fillAlbumFields sampleGuess sampleAlbumFieldsFull).title = sampleAlbumFieldsFull.title
    ∧ (fillAlbumFields sampleGuess sampleAlbumFieldsFull).artist = sampleAlbumFieldsFull.artist
    ∧ (fillAlbumFields sampleGuess sampleAlbumFieldsFull).date = sampleAlbumFieldsFull.date
    ∧ (fillAlbumFields sampleGuess sampleAlbumFieldsFull).disc_total
        = sampleAlbumFieldsFull.disc_total :=
  ⟨(fill_blanks_only sampleGuess sampleTrackFieldsFull sampleAlbumFieldsFull).1 (by decide),
   (fill_blanks_only sampleGuess sampleTrackFieldsFull sampleAlbumFieldsFull).2.1 (by decide),
   (fill_blanks_only sampleGuess sampleTrackFieldsFull sampleAlbumFieldsFull).2.2.1 (by decide),
   (fill_blanks_only sampleGuess sampleTrackFieldsFull sampleAlbumFieldsFull).2.2.2.1 (by decide),
   (fill_blanks_only sampleGuess sampleTrackFieldsFull sampleAlbumFieldsFull).2.2.2.2.1 (by decide),
   (fill_blanks_only sampleGuess sampleTrackFieldsFull sampleAlbumFieldsFull).2.2.2.2.2.1
     (by decide),
   (fill_blanks_only sampleGuess sampleTrackFieldsFull sampleAlbumFieldsFull).2.2.2.2.2.2
     (by decide)⟩

/-- C4: on a run of the write hook that completes, the track-number tag is
in nullTags exactly when the in-memory track_num is non-positive or the
on-disk track value is a non-positive number, the date tag is in nullTags
exactly when the on-disk date equals the album sentinel date, and nothing
but these two tags is ever deleted. -/
theorem write_hook_deletion_conditions (track : Track) (audio_file : AudioFileTags)
    (tags : List String) (h : write_custom_tags track audio_file = Except.ok tags) :
    ("track" ∈ tags ↔ (track.track_num ≤ 0 ∨ ∃ v, audio_file.track = some v ∧ v ≤ 0))
    ∧ ("date" ∈ tags ↔ audio_file.date = some _NULL_ALBUM_FIELDS_date)
    ∧ (∀ s ∈ tags, s = "track" ∨ s = "date") := by
  unfold write_custom_tags at h
  by_cases h0 : track.track_num ≤ 0
  · rw [if_pos h0] at h
    have htags : tags = nullTagsFor true audio_file := by
      cases h; rfl
    subst htags
    unfold nullTagsFor
    by_cases hd : audio_file.date = some _NULL_ALBUM_FIELDS_date <;>
      simp [hd, h0]
  · rw [if_neg h0] at h
    cases haf : audio_file.track with
    | none => rw [haf] at h; cases h
    | some v =>
      rw [haf] at h
      have htags : tags = nullTagsFor (decide (v ≤ 0)) audio_file := by
        cases h; rfl
      subst htags
      unfold nullTagsFor
      by_cases hv : v ≤ 0 <;>
        by_cases hd : audio_file.date = some _NULL_ALBUM_FIELDS_date <;>
          simp [hd, hv, h0, haf]

/-- Witness for write_hook_deletion_conditions: in-memory track_num 0 and
an on-disk file carrying track 0 and the sentinel date delete both tags. -/
theorem write_hook_deletion_conditions_witness :
    ("track" ∈ ["track", "date"]
        ↔ (sampleTrack.track_num ≤ 0 ∨ ∃ v, sampleAudioFile.track = some v ∧ v ≤ 0))
    ∧ ("date" ∈ ["track", "date"] ↔ sampleAudioFile.date = some _NULL_ALBUM_FIELDS_date)
    ∧ (∀ s ∈ ["track", "date"], s = "track" ∨ s = "date") :=
  write_hook_deletion_conditions sampleTrack sampleAudioFile ["track", "date"] rfl

/-- C9: the write hook raises (the modelled TypeError from comparing None
with an int) exactly when the in-memory track_num is positive and the
freshly-written file carries no track tag; it completes exactly when the
in-memory track_num is non-positive (short-circuit) or the on-disk track
value is numeric. -/
theorem write_hook_error_characterization (track : Track) (audio_file : AudioFileTags) :
    (write_custom_tags track audio_file = Except.error "TypeError"
        ↔ (0 < track.track_num ∧ audio_file.track = none))
    ∧ ((∃ tags, write_custom_tags track audio_file = Except.ok tags)
        ↔ (track.track_num ≤ 0 ∨ audio_file.track ≠ none)) := by
  unfold write_custom_tags
  by_cases h0 : track.track_num ≤ 0
  · rw [if_pos h0]
    constructor
    · simp
      omega
    · simp [h0]
  · rw [if_neg h0]
    cases haf : audio_file.track with
    | none => simp [h0]; omega
    | some v => simp [h0]

/-- Helper: a blank track_num with no track_num guess reconciles to the
sentinel -1. -/
theorem fillTrackFields_track_num_sentinel (gf : GuessedFields) (tf : TrackFields)
    (hb : blankOptInt tf.track_num = true) (hg : gf.track_num = none) :
    (fillTrackFields gf tf).track_num = some (-1) := by
  simp [fillTrackFields, hb, hg, _GUESS_TAGS, _NULL_TRACK_FIELDS_track_num]

/-- Helper: a blank track_num with a track_num guess reconciles to the
int-cast guess. -/
theorem fillTrackFields_track_num_guess (gf : GuessedFields) (tf : TrackFields) (g : String)
    (hb : blankOptInt tf.track_num = true) (hg : gf.track_num = some g) :
    (fillTrackFields gf tf).track_num = some (intOfDecimalDigits g) := by
  simp [fillTrackFields, hb, hg, _GUESS_TAGS]

/-- Helper: after the album fix-up loop the title entry is always set. -/
theorem fillAlbumFields_title_isSome (gf : GuessedFields) (af : AlbumFields) :
    ∃ s, (fillAlbumFields gf af).title = some s := by
  unfold fillAlbumFields
  by_cases h : blankOptStr af.title = true
  · refine ⟨if _GUESS_TAGS then gf.album_title else _NULL_ALBUM_FIELDS_title, ?_⟩
    simp [h]
  · rw [Bool.not_eq_true] at h
    cases haf : af.title with
    | none => rw [haf] at h; simp [blankOptStr] at h
    | some s =>
      rw [haf] at h
      exact ⟨s, by rw [if_neg (by simp [h])]⟩

/-- Helper: Python int() of a digit capture is non-negative. -/
theorem intOfDecimalDigits_nonneg (s : String) : 0 ≤ intOfDecimalDigits s :=
  Int.natCast_nonneg _

/-- Helper: one read-hook step under sentinelCond: the output track_num is
the negated updated counter, and the state holds album `A` with counter
reset to 1 on album change and incremented otherwise. -/
theorem read_step_sentinel (A : String) (inv : ReadInvocation) (st : DState)
    (h : sentinelCond A inv) :
    ((read_custom_tags inv.track_path inv.album_fields inv.track_fields st).1.track_num
        = some (-(if st._last_added_album ≠ A then 1 else st._null_track_num_count + 1)))
    ∧ ((read_custom_tags inv.track_path inv.album_fields inv.track_fields st).2.2
        = ⟨A, if st._last_added_album ≠ A then 1 else st._null_track_num_count + 1⟩) := by
  obtain ⟨hb, hg, ht⟩ := h
  have h1 : (fillTrackFields (guess_fields inv.track_path) inv.track_fields).track_num
      = some (-1) := fillTrackFields_track_num_sentinel _ _ hb hg
  unfold read_custom_tags disambiguate
  simp only [ht, Option.getD_some, _NULL_TRACK_FIELDS_track_num, h1, if_pos]
  split
  · exact ⟨rfl, rfl⟩
  · next hne =>
    rw [not_ne_iff] at hne
    exact ⟨rfl, by rw [← hne]⟩

/-- Helper: a run of sentinelCond invocations over an unchanged album hands
out the negated counter values -(c+1), -(c+2), ... and leaves the state at
(A, c + n). -/
theorem runReads_same_album (A : String) (invs : List ReadInvocation) :
    ∀ st : DState, st._last_added_album = A →
      (∀ inv ∈ invs, sentinelCond A inv) →
      (runReads invs st).1.map (fun o => o.1.track_num)
          = negTrackNums st._null_track_num_count invs.length
        ∧ (runReads invs st).2 = ⟨A, st._null_track_num_count + invs.length⟩ := by
  induction invs with
  | nil =>
    intro st hla _
    refine ⟨rfl, ?_⟩
    cases st with
    | mk l c => simp_all [runReads]
  | cons inv rest ih =>
    intro st hla hall
    have hstep := read_step_sentinel A inv st (hall inv (List.mem_cons_self inv rest))
    rw [if_neg (by simp [hla])] at hstep
    obtain ⟨h1, h2⟩ := hstep
    have hrec := ih ⟨A, st._null_track_num_count + 1⟩ rfl
      (fun i hi => hall i (List.mem_cons_of_mem inv hi))
    simp only [runReads, List.map_cons, List.length_cons, negTrackNums, h1, h2]
    constructor
    · exact congrArg _ hrec.1
    · rw [hrec.2]
      show DState.mk A (st._null_track_num_count + 1 + (rest.length : Int)) = _
      refine congrArg (DState.mk A) ?_
      push_cast
      ring

/-- Helper: the counter track numbers spelt out as a range. -/
theorem negTrackNums_eq_range : ∀ (n : Nat) (c : Int),
    negTrackNums c n = (List.range n).map fun (i : Nat) => some (-(c + (i : Int) + 1))
  | 0, _ => by simp [negTrackNums]
  | n + 1, c => by
    rw [List.range_succ_eq_map, negTrackNums, List.map_cons, List.map_map]
    refine congrArg₂ List.cons (by norm_num) ?_
    rw [negTrackNums_eq_range n (c + 1)]
    refine congrArg (fun f => List.map f (List.range n)) ?_
    funext i
    simp only [Function.comp_apply, Option.some.injEq, neg_inj, Nat.succ_eq_add_one]
    push_cast
    ring

/-- C1: over a serial album-contiguous run in which every invocation has a
blank track_num, no path-guessed track number, and album title reconciling
to `A`, the disambiguator assigns -1, -2, ..., -N in processing order
(pairwise distinct); since the starting counter value is arbitrary and only
the starting album differs from `A`, the first track of the new album
receives -1 regardless of the previous album's final counter. -/
theorem read_hook_disambiguator_uniqueness (A : String) (invs : List ReadInvocation)
    (st0 : DState) (hne : st0._last_added_album ≠ A)
    (hall : ∀ inv ∈ invs, sentinelCond A inv) :
    ((runReads invs st0).1.map (fun o => o.1.track_num)
        = (List.range invs.length).map fun (i : Nat) => some (-((i : Int) + 1)))
      ∧ ((runReads invs st0).1.map (fun o => o.1.track_num)).Nodup := by
  have key : (runReads invs st0).1.map (fun o => o.1.track_num)
      = negTrackNums 0 invs.length := by
    cases invs with
    | nil => rfl
    | cons inv rest =>
      have hstep := read_step_sentinel A inv st0 (hall inv (List.mem_cons_self inv rest))
      rw [if_pos hne] at hstep
      obtain ⟨h1, h2⟩ := hstep
      have hrec := runReads_same_album A rest ⟨A, 1⟩ rfl
        (fun i hi => hall i (List.mem_cons_of_mem inv hi))
      simp only [runReads, List.map_cons, List.length_cons, negTrackNums, h1, h2]
      exact congrArg₂ List.cons (by norm_num) hrec.1
  have hfun : (fun (i : Nat) => some (-((0 : Int) + (i : Int) + 1)))
      = fun (i : Nat) => some (-((i : Int) + 1)) := by
    funext i
    norm_num
  rw [key, negTrackNums_eq_range, hfun]
  refine ⟨rfl, List.Nodup.map ?_ (List.nodup_range _)⟩
  intro a b hab
  simp only [Option.some.injEq, neg_inj, add_left_inj, Nat.cast_inj] at hab
  exact hab

/-- Witness for read_hook_disambiguator_uniqueness: two blank-track_num
invocations of album "Al" from the initial module state receive -1, -2. -/
theorem read_hook_disambiguator_uniqueness_witness :
    (((runReads [sampleInvA, sampleInvB] sampleState0).1.map (fun o => o.1.track_num)
        = (List.range [sampleInvA, sampleInvB].length).map
            fun (i : Nat) => some (-((i : Int) + 1)))
      ∧ ((runReads [sampleInvA, sampleInvB] sampleState0).1.map
          (fun o => o.1.track_num)).Nodup) :=
  read_hook_disambiguator_uniqueness "Al" [sampleInvA, sampleInvB] sampleState0
    (by decide) (by decide)

/-- C2 counterexample: with filename "0 Song" and a blank (0) incoming
track_num, the reconciler writes the int-cast guess 0, which is still
blank — refuting "after reconciliation none of the policy-governed fields
is blank". -/
theorem reconciler_blank_field_counterexample :
    (fillTrackFields (guess_fields samplePathZero) sampleTrackFieldsZeroNum).track_num = some 0
    ∧ blankOptInt
        (fillTrackFields (guess_fields samplePathZero) sampleTrackFieldsZeroNum).track_num
        = true := by
  decide

/-- C2 amended: after reconciliation every policy-governed field holds its
original tag data, a path-derived guess, or the table's sentinel; the
field is moreover non-blank except when the guess that filled it is
itself blank (a track_num or disc guess casting to 0, or an empty guessed
title / album title). -/
theorem reconciler_postcondition_amended (p : TrackPath) (tf : TrackFields) (af : AlbumFields) :
    ((fillTrackFields (guess_fields p) tf).title = tf.title
      ∨ (fillTrackFields (guess_fields p) tf).title = some (guess_fields p).title
      ∨ (fillTrackFields (guess_fields p) tf).title = some _NULL_TRACK_FIELDS_title)
    ∧ ((fillTrackFields (guess_fields p) tf).track_num = tf.track_num
      ∨ (∃ g, (guess_fields p).track_num = some g
          ∧ (fillTrackFields (guess_fields p) tf).track_num = some (intOfDecimalDigits g))
      ∨ (fillTrackFields (guess_fields p) tf).track_num = some _NULL_TRACK_FIELDS_track_num)
    ∧ ((fillTrackFields (guess_fields p) tf).disc = tf.disc
      ∨ (∃ g, (guess_fields p).disc = some g
          ∧ (fillTrackFields (guess_fields p) tf).disc = some (intOfDecimalDigits g))
      ∨ (fillTrackFields (guess_fields p) tf).disc = some _NULL_TRACK_FIELDS_disc)
    ∧ ((fillAlbumFields (guess_fields p) af).title = af.title
      ∨ (fillAlbumFields (guess_fields p) af).title = some (guess_fields p).album_title
      ∨ (fillAlbumFields (guess_fields p) af).title = some _NULL_ALBUM_FIELDS_title)
    ∧ ((fillAlbumFields (guess_fields p) af).artist = af.artist
      ∨ (fillAlbumFields (guess_fields p) af).artist = some _NULL_ALBUM_FIELDS_artist)
    ∧ ((fillAlbumFields (guess_fields p) af).date = af.date
      ∨ (fillAlbumFields (guess_fields p) af).date = some _NULL_ALBUM_FIELDS_date)
    ∧ ((fillAlbumFields (guess_fields p) af).disc_total = af.disc_total
      ∨ (fillAlbumFields (guess_fields p) af).disc_total = some _NULL_ALBUM_FIELDS_disc_total)
    ∧ (blankOptStr (fillTrackFields (guess_fields p) tf).title = true
        → (guess_fields p).title = "")
    ∧ (blankOptInt (fillTrackFields (guess_fields p) tf).track_num = true
        → ∃ g, (guess_fields p).track_num = some g ∧ intOfDecimalDigits g = 0)
    ∧ (blankOptInt (fillTrackFields (guess_fields p) tf).disc = true
        → ∃ g, (guess_fields p).disc = some g ∧ intOfDecimalDigits g = 0)
    ∧ (blankOptStr (fillAlbumFields (guess_fields p) af).title = true
        → (guess_fields p).album_title = "")
    ∧ blankOptStr (fillAlbumFields (guess_fields p) af).artist = false
    ∧ blankOptDate (fillAlbumFields (guess_fields p) af).date = false
    ∧ blankOptInt (fillAlbumFields (guess_fields p) af).disc_total = false := by
  generalize guess_fields p = gf
  refine ⟨?_, ?_, ?_, ?_, ?_, ?_, ?_, ?_, ?_, ?_, ?_, ?_, ?_, ?_⟩
  · by_cases h : blankOptStr tf.title = true
    · right; left; simp [fillTrackFields, h, _GUESS_TAGS]
    · left; simp [fillTrackFields, h]
  · by_cases hb : blankOptInt tf.track_num = true
    · cases hg : gf.track_num with
      | none => right; right; simp [fillTrackFields, hb, hg, _GUESS_TAGS]
      | some g =>
        right; left
        exact ⟨g, rfl, by simp [fillTrackFields, hb, hg, _GUESS_TAGS]⟩
    · left; simp [fillTrackFields, hb]
  · by_cases hb : blankOptInt tf.disc = true
    · cases hg : gf.disc with
      | none => right; right; simp [fillTrackFields, hb, hg, _GUESS_TAGS]
      | some g =>
        right; left
        exact ⟨g, rfl, by simp [fillTrackFields, hb, hg, _GUESS_TAGS]⟩
    · left; simp [fillTrackFields, hb]
  · by_cases h : blankOptStr af.title = true
    · right; left; simp [fillAlbumFields, h, _GUESS_TAGS]
    · left; simp [fillAlbumFields, h]
  · by_cases h : blankOptStr af.artist = true
    · right; simp [fillAlbumFields, h]
    · left; simp [fillAlbumFields, h]
  · by_cases h : blankOptDate af.date = true
    · right; simp [fillAlbumFields, h]
    · left; simp [fillAlbumFields, h]
  · by_cases h : blankOptInt af.disc_total = true
    · right; simp [fillAlbumFields, h]
    · left; simp [fillAlbumFields, h]
  · intro hblank
    by_cases h : blankOptStr tf.title = true
    · have heq : (fillTrackFields gf tf).title = some gf.title := by
        simp [fillTrackFields, h, _GUESS_TAGS]
      rw [heq] at hblank
      simpa [blankOptStr] using hblank
    · have heq : (fillTrackFields gf tf).title = tf.title := by simp [fillTrackFields, h]
      rw [heq] at hblank
      exact absurd hblank h
  · intro hblank
    by_cases hb : blankOptInt tf.track_num = true
    · cases hg : gf.track_num with
      | none =>
        rw [fillTrackFields_track_num_sentinel gf tf hb hg] at hblank
        simp [blankOptInt] at hblank
      | some g =>
        rw [fillTrackFields_track_num_guess gf tf g hb hg] at hblank
        exact ⟨g, rfl, by simpa [blankOptInt] using hblank⟩
    · have heq : (fillTrackFields gf tf).track_num = tf.track_num := by
        simp [fillTrackFields, hb]
      rw [heq] at hblank
      exact absurd hblank hb
  · intro hblank
    by_cases hb : blankOptInt tf.disc = true
    · cases hg : gf.disc with
      | none =>
        have heq : (fillTrackFields gf tf).disc = some _NULL_TRACK_FIELDS_disc := by
          simp [fillTrackFields, hb, hg, _GUESS_TAGS]
        rw [heq] at hblank
        simp [blankOptInt, _NULL_TRACK_FIELDS_disc] at hblank
      | some g =>
        have heq : (fillTrackFields gf tf).disc = some (intOfDecimalDigits g) := by
          simp [fillTrackFields, hb, hg, _GUESS_TAGS]
        rw [heq] at hblank
        exact ⟨g, rfl, by simpa [blankOptInt] using hblank⟩
    · have heq : (fillTrackFields gf tf).disc = tf.disc := by simp [fillTrackFields, hb]
      rw [heq] at hblank
      exact absurd hblank hb
  · intro hblank
    by_cases h : blankOptStr af.title = true
    · have heq : (fillAlbumFields gf af).title = some gf.album_title := by
        simp [fillAlbumFields, h, _GUESS_TAGS]
      rw [heq] at hblank
      simpa [blankOptStr] using hblank
    · have heq : (fillAlbumFields gf af).title = af.title := by simp [fillAlbumFields, h]
      rw [heq] at hblank
      exact absurd hblank h
  · by_cases h : blankOptStr af.artist = true
    · have heq : (fillAlbumFields gf af).artist = some _NULL_ALBUM_FIELDS_artist := by
        simp [fillAlbumFields, h]
      rw [heq]
      simp [blankOptStr, _NULL_ALBUM_FIELDS_artist]
    · have heq : (fillAlbumFields gf af).artist = af.artist := by simp [fillAlbumFields, h]
      rw [heq]
      simpa [Bool.not_eq_true] using h
  · by_cases h : blankOptDate af.date = true
    · have heq : (fillAlbumFields gf af).date = some _NULL_ALBUM_FIELDS_date := by
        simp [fillAlbumFields, h]
      rw [heq]
      simp [blankOptDate]
    · have heq : (fillAlbumFields gf af).date = af.date := by simp [fillAlbumFields, h]
      rw [heq]
      simpa [Bool.not_eq_true] using h
  · by_cases h : blankOptInt af.disc_total = true
    · have heq : (fillAlbumFields gf af).disc_total = some _NULL_ALBUM_FIELDS_disc_total := by
        simp [fillAlbumFields, h]
      rw [heq]
      simp [blankOptInt, _NULL_ALBUM_FIELDS_disc_total]
    · have heq : (fillAlbumFields gf af).disc_total = af.disc_total := by
        simp [fillAlbumFields, h]
      rw [heq]
      simpa [Bool.not_eq_true] using h

/-- C10 counterexample: with filename "0 Song", an incoming track_num of 0
leaves the whole read hook with track_num still 0 — the track number 0
does survive reconciliation unchanged when the guess parses to 0. -/
theorem track_zero_survives_counterexample :
    ((read_custom_tags samplePathZero sampleAlbumFieldsFull sampleTrackFieldsZeroNum
        sampleState0).1.track_num = some 0)
    ∧ sampleTrackFieldsZeroNum.track_num = some 0 := by
  decide

/-- C10 amended: an incoming track_num of 0 is treated as blank and is
always rewritten by the read hook — to a negative disambiguation value
when the path yields no track_num guess, and to the int-cast guess
otherwise; so the value 0 survives exactly when the guess itself parses
to 0. -/
theorem blank_zero_track_num_amended (p : TrackPath) (af : AlbumFields) (tf : TrackFields)
    (st : DState) (h0 : tf.track_num = some 0) (hc : 0 ≤ st._null_track_num_count) :
    ((guess_fields p).track_num = none →
        ∃ n : Int, 0 < n ∧ (read_custom_tags p af tf st).1.track_num = some (-n))
    ∧ (∀ g, (guess_fields p).track_num = some g →
        (read_custom_tags p af tf st).1.track_num = some (intOfDecimalDigits g)) := by
  have hb : blankOptInt tf.track_num = true := by simp [h0, blankOptInt]
  constructor
  · intro hg
    obtain ⟨A, hA⟩ := fillAlbumFields_title_isSome (guess_fields p) af
    have hstep := (read_step_sentinel A ⟨p, af, tf⟩ st ⟨hb, hg, hA⟩).1
    refine ⟨if st._last_added_album ≠ A then 1 else st._null_track_num_count + 1, ?_, hstep⟩
    split
    · norm_num
    · omega
  · intro g hg
    have hfill : (fillTrackFields (guess_fields p) tf).track_num
        = some (intOfDecimalDigits g) := fillTrackFields_track_num_guess _ _ g hb hg
    have hnotsent : ¬((fillTrackFields (guess_fields p) tf).track_num
        = some _NULL_TRACK_FIELDS_track_num) := by
      rw [hfill]
      intro hcontra
      have hpos := intOfDecimalDigits_nonneg g
      simp only [_NULL_TRACK_FIELDS_track_num, Option.some.injEq] at hcontra
      omega
    simp only [read_custom_tags, disambiguate]
    rw [if_neg hnotsent]
    exact hfill

/-- Witness for blank_zero_track_num_amended at "Song" (no pattern match):
the incoming 0 becomes a negative disambiguation value. -/
theorem blank_zero_track_num_amended_witness :
    (((guess_fields samplePathPlain).track_num = none →
        ∃ n : Int, 0 < n ∧ (read_custom_tags samplePathPlain sampleAlbumFieldsFull
            sampleTrackFieldsZeroNum sampleState0).1.track_num = some (-n))
      ∧ (∀ g, (guess_fields samplePathPlain).track_num = some g →
          (read_custom_tags samplePathPlain sampleAlbumFieldsFull sampleTrackFieldsZeroNum
              sampleState0).1.track_num = some (intOfDecimalDigits g))) :=
  blank_zero_track_num_amended samplePathPlain sampleAlbumFieldsFull sampleTrackFieldsZeroNum
    sampleState0 rfl (by decide)

end FromFilePath
